import Mathlib

/-
Verification of the font_renamer core: a shallow embedding of
`font_renamer/platforms.py`, `font_renamer/name_record_mapper.py` and
`font_renamer/table_name.py`, followed by theorems settling the spec claims.

Modelling conventions:
- Python dicts become association lists (`List (k × v)`); `List.lookup` is the
  dict lookup (dict keys are unique in the source, so first-match lookup agrees
  with dict semantics).
- A fallible Python call becomes `Except PyError α`; each `PyError` constructor
  names the Python exception it stands for (see the comments on `PyError`).
- Machine integers in the source are plain Python ints with no overflow, so
  they become `Nat`.
-/

namespace FontRenamer

/-- A Python dict key as used by the mapper's id-keyed platform index: the
index built in `_platforms_by_id` holds `PlatformID` (int-valued) keys, but
the single surviving `get_language_info` implementation is reached for every
selector shape, so lookups may also present a string key (a platform name) or
the `None` object. -/
inductive PyKey where
  | intKey (n : Nat)
  | strKey (s : String)
  | noneKey
  deriving DecidableEq

/-- Exceptions raised by the embedded code. Constructor-to-Python mapping:
`typeError` is `TypeError` (raised by the call machinery for a missing
keyword-only argument); `keyError` is a plain `KeyError` from a dict lookup
(it carries the missing key); `unsupportedLanguageCode` is
`UnsupportedLanguageCodeError` (a `KeyError` subclass, carries the rejected
language code that the Python message interpolates); `recordNotFound` is the
`KeyError` raised by the name-table adapter, carrying the four queried IDs that
the Python message interpolates; `unicodeDecodeError` is `UnicodeDecodeError`
(a `ValueError` subclass, carries the offending raw bytes);
`invalidStringEncoding` is the explicit `ValueError` raised in
`NameRecord.from_ft_name_record`, carrying the decoded string its message
interpolates. -/
inductive PyError where
  | typeError (msg : String)
  | keyError (key : PyKey)
  | unsupportedLanguageCode (code : String)
  | recordNotFound (nameId : Nat) (platformId : Nat)
      (platformEncodingId : Nat) (languageId : Nat)
  | unicodeDecodeError (raw : List Nat)
  | invalidStringEncoding (decoded : String)
  deriving DecidableEq

end FontRenamer

namespace FontRenamer

/-- `font_renamer.platforms.LanguageMappedPlatform` (with the fields of its
base class `Platform` inlined, as `dataclass` inheritance does). -/
structure LanguageMappedPlatform where
  name : String
  platform_id : Nat
  valid_platform_encoding_ids : List Nat
  valid_language_ids : List Nat
  language_ids : List (String × Nat)
  platform_encoding_ids : List (Nat × Nat)
  deriving DecidableEq

/-- `LanguageMappedPlatform.get_language_id`: look the code up in
`language_ids`; on a miss raise `UnsupportedLanguageCodeError`. -/
def LanguageMappedPlatform.get_language_id (p : LanguageMappedPlatform)
    (language_code : String) : Except PyError Nat :=
  match p.language_ids.lookup language_code with
  | some language_id => .ok language_id
  | none => .error (.unsupportedLanguageCode language_code)

/-- `LanguageMappedPlatform.get_platform_encoding_id`: resolve the language id
first (propagating its failure), then look it up in `platform_encoding_ids`;
a second-stage miss raises the same error kind. -/
def LanguageMappedPlatform.get_platform_encoding_id
    (p : LanguageMappedPlatform) (language_code : String) :
    Except PyError Nat :=
  match p.get_language_id language_code with
  | .error e => .error e
  | .ok language_id =>
    match p.platform_encoding_ids.lookup language_id with
    | some platform_encoding_id => .ok platform_encoding_id
    | none => .error (.unsupportedLanguageCode language_code)

end FontRenamer

namespace FontRenamer

/-- Claim C3: on a `LanguageMappedPlatform`, `get_language_id c` returns
exactly `language_ids[c]` when `c` is a key of `language_ids` (and, being a
total function of its arguments in this embedding, repeated calls agree), and
raises `UnsupportedLanguageCode` when `c` is not a key. -/
theorem get_language_id_hit_and_miss (p : LanguageMappedPlatform)
    (c : String) :
    (∀ v, p.language_ids.lookup c = some v →
      p.get_language_id c = .ok v) ∧
    (p.language_ids.lookup c = none →
      p.get_language_id c = .error (.unsupportedLanguageCode c)) := by
  constructor
  · intro v h
    simp [LanguageMappedPlatform.get_language_id, h]
  · intro h
    simp [LanguageMappedPlatform.get_language_id, h]

/-- A small concrete platform used to instantiate the resolver theorems. -/
def witnessPlatform : LanguageMappedPlatform :=
  { name := "windows"
    platform_id := 3
    valid_platform_encoding_ids := [1]
    valid_language_ids := [1033]
    language_ids := [("en", 1033)]
    platform_encoding_ids := [(1033, 1)] }

/-- Witness for claim C3 at a concrete platform: a hit on "en" and a miss on
"zz". -/
theorem get_language_id_hit_and_miss_witness :
    witnessPlatform.get_language_id "en" = .ok 1033 ∧
    witnessPlatform.get_language_id "zz" =
      .error (.unsupportedLanguageCode "zz") :=
  ⟨(get_language_id_hit_and_miss witnessPlatform "en").1 1033 (by decide),
   (get_language_id_hit_and_miss witnessPlatform "zz").2 (by decide)⟩

/-- Claim C4: `get_platform_encoding_id c` first resolves the language id via
`get_language_id c`, propagating its error on a miss; when the resolved id is
a key of `platform_encoding_ids` it returns that entry; when it is absent it
raises the same error kind, `UnsupportedLanguageCode`. -/
theorem get_platform_encoding_id_spec (p : LanguageMappedPlatform)
    (c : String) :
    (∀ e, p.get_language_id c = .error e →
      p.get_platform_encoding_id c = .error e) ∧
    (∀ lid, p.get_language_id c = .ok lid →
      (∀ eid, p.platform_encoding_ids.lookup lid = some eid →
        p.get_platform_encoding_id c = .ok eid) ∧
      (p.platform_encoding_ids.lookup lid = none →
        p.get_platform_encoding_id c =
          .error (.unsupportedLanguageCode c))) := by
  constructor
  · intro e h
    simp [LanguageMappedPlatform.get_platform_encoding_id, h]
  · intro lid h
    constructor
    · intro eid he
      simp [LanguageMappedPlatform.get_platform_encoding_id, h, he]
    · intro he
      simp [LanguageMappedPlatform.get_platform_encoding_id, h, he]

/-- A defective platform whose encoding table misses the mapped language id,
exercising the defensive second-stage branch of
`get_platform_encoding_id`. -/
def defectivePlatform : LanguageMappedPlatform :=
  { name := "broken"
    platform_id := 3
    valid_platform_encoding_ids := [1]
    valid_language_ids := [1033]
    language_ids := [("en", 1033)]
    platform_encoding_ids := [] }

/-- Witness for claim C4 at concrete platforms: error propagation on a miss,
the successful second lookup, and the defensive second-stage failure. -/
theorem get_platform_encoding_id_spec_witness :
    witnessPlatform.get_platform_encoding_id "zz" =
      .error (.unsupportedLanguageCode "zz") ∧
    witnessPlatform.get_platform_encoding_id "en" = .ok 1 ∧
    defectivePlatform.get_platform_encoding_id "en" =
      .error (.unsupportedLanguageCode "en") :=
  ⟨(get_platform_encoding_id_spec witnessPlatform "zz").1
      (.unsupportedLanguageCode "zz") (by rfl),
   ((get_platform_encoding_id_spec witnessPlatform "en").2 1033
      (by rfl)).1 1 (by decide),
   ((get_platform_encoding_id_spec defectivePlatform "en").2 1033
      (by rfl)).2 (by decide)⟩

end FontRenamer

namespace FontRenamer

/-- Modelled from the spec: the language and encoding tables of the two
registry constants. The full datasets live in the external fontTools
collaborator (an out-of-scope dependency per the spec); the spec describes
them as a fixed dataset in which, for Windows, every mapped language is
assigned the single Unicode-BMP encoding id (1). Representative entries
suffice for the claims, none of which depends on the full table contents. -/
def WINDOWS_PLATFORM : LanguageMappedPlatform :=
  { name := "windows"
    platform_id := 3
    valid_platform_encoding_ids := [0, 1, 2, 3, 4, 5, 6, 10]
    valid_language_ids := [1033, 1031, 1025]
    language_ids := [("en", 1033), ("de", 1031), ("ar", 1025)]
    platform_encoding_ids := [(1033, 1), (1031, 1), (1025, 1)] }

/-- Modelled from the spec: the Macintosh registry constant; see
WINDOWS_PLATFORM for which parts are representative. -/
def MAC_PLATFORM : LanguageMappedPlatform :=
  { name := "mac"
    platform_id := 1
    valid_platform_encoding_ids := [0, 1, 2, 3, 4]
    valid_language_ids := [0, 2, 12]
    language_ids := [("en", 0), ("de", 2), ("ar", 12)]
    platform_encoding_ids := [(0, 0), (2, 0), (12, 4)] }

/-- `font_renamer.platforms.PLATFORMS`: the default platform pair, Windows
first. -/
def PLATFORMS : List LanguageMappedPlatform := [WINDOWS_PLATFORM, MAC_PLATFORM]

/-- `font_renamer.name_record_mapper.LanguageInfo` (also defined identically
in `platforms.py`). -/
structure LanguageInfo where
  platform_id : Nat
  language_id : Nat
  platform_encoding_id : Nat
  deriving DecidableEq

/-- `font_renamer.platforms.get_language_info`: resolve one code against one
platform alone, language id first, then encoding id, each failure
propagating. -/
def platformLanguageInfo (platform : LanguageMappedPlatform)
    (language_code : String) : Except PyError LanguageInfo := do
  let language_id ← platform.get_language_id language_code
  let platform_encoding_id ← platform.get_platform_encoding_id language_code
  return ⟨platform.platform_id, language_id, platform_encoding_id⟩

/-- The value returned by a `get_language_info` call in the source: either a
single record or (on the documented all-platforms path) a sequence. -/
inductive MapperResult where
  | single (info : LanguageInfo)
  | seq (infos : List LanguageInfo)
  deriving DecidableEq

/-- The shape of the keyword-only `platform` argument at a Python call site of
`LanguageInfoMapper.get_language_info`: absent, the `None` object, a platform
id, or a platform name. -/
inductive PlatformSelector where
  | noSelector
  | pyNone
  | byId (i : Nat)
  | byName (s : String)
  deriving DecidableEq

/-- `font_renamer.name_record_mapper.LanguageInfoMapper`: its only state is
the configured platform sequence (the two cached indices are pure functions of
it). -/
structure LanguageInfoMapper where
  platforms : List LanguageMappedPlatform
  deriving DecidableEq

/-- `LanguageInfoMapper.__init__`: the body is
`platforms if platforms else PLATFORMS`, a truthiness test, so both the
absent argument (`None`) and an explicitly empty sequence fall back to the
default pair. -/
def LanguageInfoMapper.make
    (platforms : Option (List LanguageMappedPlatform)) : LanguageInfoMapper :=
  match platforms with
  | none => ⟨PLATFORMS⟩
  | some ps => if ps.isEmpty then ⟨PLATFORMS⟩ else ⟨ps⟩

/-- `LanguageInfoMapper._platforms_by_id`: the cached platform-id-keyed
index. Its keys are the configured platform ids (int-valued enum members). -/
def LanguageInfoMapper.platforms_by_id (m : LanguageInfoMapper) :
    List (PyKey × LanguageMappedPlatform) :=
  m.platforms.map (fun p => (PyKey.intKey p.platform_id, p))

/-- The one implementation of `get_language_info` that survives registration
(the platform-id overload, lines 121-133 of `name_record_mapper.py`): look the
keyword argument up in `_platforms_by_id` (a miss is a `KeyError` carrying the
key), then build a `LanguageInfo` from the platform's two resolver calls,
language id first, either failure propagating. -/
def LanguageInfoMapper.dispatched_impl (m : LanguageInfoMapper)
    (language_code : String) (platform : PyKey) : Except PyError MapperResult :=
  match m.platforms_by_id.lookup platform with
  | none => .error (.keyError platform)
  | some target => do
    let language_id ← target.get_language_id language_code
    let platform_encoding_id ← target.get_platform_encoding_id language_code
    return .single ⟨target.platform_id, language_id, platform_encoding_id⟩

/-- `LanguageInfoMapper.get_language_info`, as the interpreter runs it.
`functools.singledispatchmethod` dispatches on the first annotated parameter,
`language_code`, whose annotation is `str` in both overloads of the concrete
class; registering the second overload therefore overwrites the first in the
dispatch registry, and every call executes the platform-id overload
(`dispatched_impl` here). Consequences, mirrored case by case: a call without
the keyword-only `platform` argument raises `TypeError` from the call
machinery; a call with `platform=None`, a platform id, or a platform name
passes that value as the `_platforms_by_id` key. The all-platforms overload
(lines 103-119), which would build one `LanguageInfo` per configured platform,
is unreachable (and would itself fail, calling `.values()` on the platform
tuple). -/
def LanguageInfoMapper.get_language_info (m : LanguageInfoMapper)
    (language_code : String) (platform : PlatformSelector) :
    Except PyError MapperResult :=
  match platform with
  | .noSelector =>
    .error (.typeError "missing required keyword-only argument: platform")
  | .pyNone => m.dispatched_impl language_code .noneKey
  | .byId i => m.dispatched_impl language_code (.intKey i)
  | .byName s => m.dispatched_impl language_code (.strKey s)

end FontRenamer

namespace FontRenamer

/-- Claim C1 (code bug): on the default mapper, a call with no platform
selector does not return the per-platform sequence the spec describes; the
surviving overload requires the keyword-only argument, so the call raises
`TypeError`, and with an explicit `platform=None` it raises `KeyError`. -/
theorem get_language_info_no_selector_raises :
    (LanguageInfoMapper.make none).get_language_info "en"
        .noSelector =
      .error (.typeError
        "missing required keyword-only argument: platform") ∧
    (LanguageInfoMapper.make none).get_language_info "en" .pyNone =
      .error (.keyError .noneKey) := by
  constructor
  · rfl
  · rfl

/-- Claim C2 (code bug): on the default mapper, selecting Windows by platform
id does return the single record equal to resolving against that platform
alone, but selecting it by its name "windows" raises `KeyError`: the name is
looked up among the int-valued keys of `_platforms_by_id`, because no
platform-name overload survives dispatch registration. -/
theorem get_language_info_by_name_raises :
    (LanguageInfoMapper.make none).get_language_info "en" (.byId 3) =
      .ok (.single ⟨3, 1033, 1⟩) ∧
    platformLanguageInfo WINDOWS_PLATFORM "en" = .ok ⟨3, 1033, 1⟩ ∧
    (LanguageInfoMapper.make none).get_language_info "en"
        (.byName "windows") =
      .error (.keyError (.strKey "windows")) := by
  refine ⟨rfl, rfl, rfl⟩

/-- Claim C10: because `__init__` tests the argument for truthiness rather
than absence, both the absent argument and an explicitly empty platform
sequence make the mapper fall back to the default pair
(WINDOWS_PLATFORM, MAC_PLATFORM); an empty sequence never yields a mapper
over zero platforms. -/
theorem mapper_init_falsy_platforms_fall_back :
    LanguageInfoMapper.make (some []) = ⟨PLATFORMS⟩ ∧
    LanguageInfoMapper.make none = ⟨PLATFORMS⟩ ∧
    PLATFORMS = [WINDOWS_PLATFORM, MAC_PLATFORM] ∧
    (LanguageInfoMapper.make (some [])).platforms.length = 2 := by
  refine ⟨rfl, rfl, rfl, rfl⟩

end FontRenamer

namespace FontRenamer

/-- A Python string value as stored in a raw fontTools name record: either
already-decoded text (`str`) or a raw byte string (`bytes`). -/
inductive PyString where
  | str (s : String)
  | bytes (b : List Nat)
  deriving DecidableEq

/-- `isinstance(x, str)` on a `PyString`. -/
def PyString.isStr : PyString → Bool
  | .str _ => true
  | .bytes _ => false

/-- Modelled from the spec: decoding a raw byte string to text, the partial
operation behind fontTools' `NameRecord.toUnicode` (an external collaborator;
the actual codec varies with the record's platform and encoding ids). The
spec only distinguishes decodable from undecodable raw strings, so any
concrete partial decoder is a faithful model; this one decodes single-byte
ASCII and reports every other byte string as undecodable. -/
def decodeBytes (b : List Nat) : Option String :=
  if b.all (fun x => x < 128) then some (String.mk (b.map Char.ofNat))
  else none

/-- Modelled from the spec: fontTools `NameRecord.toUnicode` — return text
as-is, decode bytes, and raise `UnicodeDecodeError` (carrying the offending
raw bytes) when decoding fails. -/
def PyString.toUnicode : PyString → Except PyError String
  | .str s => .ok s
  | .bytes b =>
    match decodeBytes b with
    | some s => .ok s
    | none => .error (.unicodeDecodeError b)

/-- `Exception.isInstance(e, ValueError)` for the errors of this development:
in Python, `UnicodeDecodeError` is a subclass of `ValueError`, so both it and
the explicit `ValueError` of `from_ft_name_record` are the spec's
InvalidStringEncoding error kind. -/
def PyError.isValueError : PyError → Bool
  | .unicodeDecodeError _ => true
  | .invalidStringEncoding _ => true
  | _ => false

/-- A raw lower-level record (fontTools `NameRecord`): a string plus the four
ids, field names as in fontTools. -/
structure FTNameRecord where
  string : PyString
  nameID : Nat
  platformID : Nat
  platEncID : Nat
  langID : Nat
  deriving DecidableEq

/-- `font_renamer.table_name.NameRecord`: the validated immutable value
object. -/
structure NameRecord where
  string : String
  name_id : Nat
  platform_id : Nat
  platform_encoding_id : Nat
  language_id : Nat
  deriving DecidableEq

/-- `NameRecord.from_ft_name_record`, line by line: first
`name_string = ft_name_record.toUnicode()` (whose `UnicodeDecodeError`
propagates), then `if not isinstance(ft_name_record.string, str)` — a test of
the RAW string's runtime type, not of the decode result — raise `ValueError`
carrying the decoded `name_string`; otherwise construct the record with the
four ids copied verbatim. -/
def NameRecord.from_ft_name_record (r : FTNameRecord) :
    Except PyError NameRecord :=
  match r.string.toUnicode with
  | .error e => .error e
  | .ok name_string =>
    if r.string.isStr then
      .ok { string := name_string
            name_id := r.nameID
            platform_id := r.platformID
            platform_encoding_id := r.platEncID
            language_id := r.langID }
    else
      .error (.invalidStringEncoding name_string)

/-- A dict value in the mapping returned by `NameRecord.as_dict`
(`Dict[str, Union[int, str]]`). -/
inductive PyVal where
  | s (v : String)
  | i (v : Nat)
  deriving DecidableEq

/-- `NameRecord.as_dict`: `dict(self.__dict__)` — a fresh dict whose key
insertion order is the dataclass field declaration order (`string` first),
because a frozen dataclass's `__init__` assigns the fields in declaration
order. -/
def NameRecord.as_dict (r : NameRecord) : List (String × PyVal) :=
  [("string", .s r.string),
   ("name_id", .i r.name_id),
   ("platform_id", .i r.platform_id),
   ("platform_encoding_id", .i r.platform_encoding_id),
   ("language_id", .i r.language_id)]

end FontRenamer

namespace FontRenamer

/-- A raw record whose byte string decodes to the valid text "hi": the claim
C8 as stated requires its construction to succeed. -/
def decodableBytesRecord : FTNameRecord :=
  { string := .bytes [104, 105]
    nameID := 1
    platformID := 3
    platEncID := 1
    langID := 1033 }

/-- Counterexample to claim C8 as stated: the raw string of
decodableBytesRecord decodes to the valid Unicode text "hi", yet
`from_ft_name_record` rejects the record — the guard tests
`isinstance(ft_name_record.string, str)` on the raw string, so every byte
string is rejected even when it decodes. -/
theorem from_ft_name_record_rejects_decodable_bytes :
    decodableBytesRecord.string.toUnicode = .ok "hi" ∧
    NameRecord.from_ft_name_record decodableBytesRecord =
      .error (.invalidStringEncoding "hi") := by
  refine ⟨rfl, rfl⟩

/-- Claim C8 as amended: construction from a raw record whose string is
already text succeeds with all five fields copied exactly; construction from
a raw record with a byte string always fails with a ValueError kind — the
decode error carrying the offending bytes when the bytes are undecodable, and
the explicit InvalidStringEncoding error carrying the decoded text when they
are decodable. -/
theorem from_ft_name_record_spec (r : FTNameRecord) :
    (∀ s, r.string = .str s →
      NameRecord.from_ft_name_record r =
        .ok ⟨s, r.nameID, r.platformID, r.platEncID, r.langID⟩) ∧
    (∀ b, r.string = .bytes b →
      (∃ e, NameRecord.from_ft_name_record r = .error e ∧
        e.isValueError = true) ∧
      (decodeBytes b = none →
        NameRecord.from_ft_name_record r =
          .error (.unicodeDecodeError b)) ∧
      (∀ s, decodeBytes b = some s →
        NameRecord.from_ft_name_record r =
          .error (.invalidStringEncoding s))) := by
  constructor
  · intro s hs
    simp [NameRecord.from_ft_name_record, hs, PyString.toUnicode,
      PyString.isStr]
  · intro b hb
    refine ⟨?_, ?_, ?_⟩
    · cases hd : decodeBytes b with
      | none =>
        exact ⟨.unicodeDecodeError b,
          by simp [NameRecord.from_ft_name_record, hb, PyString.toUnicode,
            hd], rfl⟩
      | some s =>
        exact ⟨.invalidStringEncoding s,
          by simp [NameRecord.from_ft_name_record, hb, PyString.toUnicode,
            hd, PyString.isStr], rfl⟩
    · intro hd
      simp [NameRecord.from_ft_name_record, hb, PyString.toUnicode, hd]
    · intro s hd
      simp [NameRecord.from_ft_name_record, hb, PyString.toUnicode, hd,
        PyString.isStr]

/-- Witness for amended claim C8 at concrete records: a text-string record is
constructed with matching fields; an undecodable byte record raises the
decode error; a decodable byte record raises InvalidStringEncoding. -/
theorem from_ft_name_record_spec_witness :
    NameRecord.from_ft_name_record
        ⟨.str "Test Family", 1, 3, 1, 1033⟩ =
      .ok ⟨"Test Family", 1, 3, 1, 1033⟩ ∧
    NameRecord.from_ft_name_record ⟨.bytes [255], 1, 3, 1, 1033⟩ =
      .error (.unicodeDecodeError [255]) ∧
    NameRecord.from_ft_name_record ⟨.bytes [104, 105], 2, 1, 0, 0⟩ =
      .error (.invalidStringEncoding "hi") :=
  ⟨(from_ft_name_record_spec ⟨.str "Test Family", 1, 3, 1, 1033⟩).1
      "Test Family" rfl,
   ((from_ft_name_record_spec ⟨.bytes [255], 1, 3, 1, 1033⟩).2
      [255] rfl).2.1 (by decide),
   (((from_ft_name_record_spec ⟨.bytes [104, 105], 2, 1, 0, 0⟩).2
      [104, 105] rfl).2.2) "hi" (by rfl)⟩

/-- A concrete record for inspecting the shape of `as_dict`. -/
def sampleRecord : NameRecord := ⟨"s", 1, 2, 3, 4⟩

/-- Counterexample to claim C9 as stated: the keys of `as_dict` are not
ordered by field name — `dict(self.__dict__)` preserves the field declaration
order, which puts "string" first, not the alphabetically first
"language_id". -/
theorem as_dict_not_ordered_by_field_name :
    sampleRecord.as_dict.map Prod.fst ≠
      ["language_id", "name_id", "platform_encoding_id", "platform_id",
       "string"] ∧
    sampleRecord.as_dict.map Prod.fst =
      ["string", "name_id", "platform_id", "platform_encoding_id",
       "language_id"] := by
  refine ⟨by decide, rfl⟩

/-- Claim C9 as amended: `as_dict` returns a mapping holding exactly the five
fields — looking up each field name yields that field's value — with keys in
field declaration order (string, name_id, platform_id, platform_encoding_id,
language_id) rather than sorted by field name; it is a snapshot, so records
rebuilt from equal snapshots are equal. -/
theorem as_dict_spec (r : NameRecord) :
    r.as_dict.map Prod.fst =
      ["string", "name_id", "platform_id", "platform_encoding_id",
       "language_id"] ∧
    r.as_dict.lookup "string" = some (.s r.string) ∧
    r.as_dict.lookup "name_id" = some (.i r.name_id) ∧
    r.as_dict.lookup "platform_id" = some (.i r.platform_id) ∧
    r.as_dict.lookup "platform_encoding_id" =
      some (.i r.platform_encoding_id) ∧
    r.as_dict.lookup "language_id" = some (.i r.language_id) ∧
    (∀ r2 : NameRecord, r.as_dict = r2.as_dict → r = r2) := by
  refine ⟨rfl, rfl, rfl, rfl, rfl, rfl, ?_⟩
  intro r2 h
  simp [NameRecord.as_dict] at h
  obtain ⟨h1, h2, h3, h4, h5⟩ := h
  cases r
  cases r2
  simp_all

end FontRenamer

namespace FontRenamer

/-- The match predicate of a name-table lookup: a record matches when all four
of its ids equal the queried ids (the string plays no part). -/
def recordMatches (nameId platformId platformEncodingId languageId : Nat)
    (r : FTNameRecord) : Bool :=
  r.nameID == nameId && r.platformID == platformId &&
    r.platEncID == platformEncodingId && r.langID == languageId

/-- The wrapped raw name table: its only state is the record list (the
adapter's constructor initializes the list to empty when the wrapped object
lacks it, so a table always has one). -/
structure NameTable where
  names : List FTNameRecord
  deriving DecidableEq

/-- Modelled from the spec: the consumed raw-table interface "find a record by
the 4-tuple of IDs, or report none found" (fontTools `getName`, an external
collaborator): the first matching record, if any. -/
def NameTable.getName (t : NameTable)
    (nameId platformId platformEncodingId languageId : Nat) :
    Option FTNameRecord :=
  t.names.find? (recordMatches nameId platformId platformEncodingId languageId)

/-- The record-list transformation of a raw-table set: overwrite the string of
the first matching record, or append a fresh record when none matches. -/
def setNameList (s : PyString)
    (nameId platformId platformEncodingId languageId : Nat) :
    List FTNameRecord → List FTNameRecord
  | [] => [⟨s, nameId, platformId, platformEncodingId, languageId⟩]
  | r :: rs =>
    if recordMatches nameId platformId platformEncodingId languageId r then
      { r with string := s } :: rs
    else
      r :: setNameList s nameId platformId platformEncodingId languageId rs

/-- Modelled from the spec: the consumed raw-table interface "insert or
overwrite a record by 4-tuple of IDs and string" (fontTools `setName`, an
external collaborator). -/
def NameTable.setName (t : NameTable) (s : PyString)
    (nameId platformId platformEncodingId languageId : Nat) : NameTable :=
  ⟨setNameList s nameId platformId platformEncodingId languageId t.names⟩

/-- `TTLibToNameTableAdapter.get_name_record`: the raw lookup, with the raw
table's none-found result normalized into a raised `KeyError` carrying the
four queried ids. -/
def get_name_record (t : NameTable)
    (name_id platform_id platform_encoding_id language_id : Nat) :
    Except PyError FTNameRecord :=
  match t.getName name_id platform_id platform_encoding_id language_id with
  | some r => .ok r
  | none =>
    .error (.recordNotFound name_id platform_id platform_encoding_id
      language_id)

/-- `TTLibToNameTableAdapter.get_name_string`: the same lookup, returning only
the record's string, with the same failure. -/
def get_name_string (t : NameTable)
    (name_id platform_id platform_encoding_id language_id : Nat) :
    Except PyError PyString :=
  match get_name_record t name_id platform_id platform_encoding_id
      language_id with
  | .ok r => .ok r.string
  | .error e => .error e

/-- `TTLibToNameTableAdapter.set_name_string`: delegate to the raw table's
set, the given text stored as a `str`. -/
def set_name_string (t : NameTable) (string : String)
    (name_id platform_id platform_encoding_id language_id : Nat) : NameTable :=
  t.setName (.str string) name_id platform_id platform_encoding_id language_id

theorem recordMatches_set_string (n p e l : Nat) (r : FTNameRecord)
    (s : PyString) :
    recordMatches n p e l { r with string := s } = recordMatches n p e l r := by
  simp [recordMatches]

theorem recordMatches_eq_true {n p e l : Nat} {r : FTNameRecord}
    (h : recordMatches n p e l r = true) :
    r.nameID = n ∧ r.platformID = p ∧ r.platEncID = e ∧ r.langID = l := by
  simpa [recordMatches, and_assoc] using h

/-- After a set, the first record matching the written 4-tuple is exactly the
written record. -/
theorem find?_setNameList (s : PyString) (n p e l : Nat)
    (rs : List FTNameRecord) :
    (setNameList s n p e l rs).find? (recordMatches n p e l) =
      some ⟨s, n, p, e, l⟩ := by
  induction rs with
  | nil =>
    simp [setNameList, List.find?, recordMatches]
  | cons r rs ih =>
    by_cases h : recordMatches n p e l r = true
    · obtain ⟨h1, h2, h3, h4⟩ := recordMatches_eq_true h
      cases r
      simp_all [setNameList, List.find?, recordMatches]
    · simp [setNameList, h, List.find?, ih]

/-- A set never removes a match and creates exactly one when none existed:
the count of matching records is one after setting into a match-free list and
is unchanged otherwise. -/
theorem countP_setNameList (s : PyString) (n p e l : Nat)
    (rs : List FTNameRecord) :
    (setNameList s n p e l rs).countP (recordMatches n p e l) =
      if rs.countP (recordMatches n p e l) = 0 then 1
      else rs.countP (recordMatches n p e l) := by
  induction rs with
  | nil =>
    simp [setNameList, List.countP_cons, recordMatches]
  | cons r rs ih =>
    by_cases h : recordMatches n p e l r = true
    · have hm : recordMatches n p e l { r with string := s } = true := by
        simpa [recordMatches_set_string] using h
      simp [setNameList, h, List.countP_cons, hm]
    · simp [setNameList, h, List.countP_cons, ih]

end FontRenamer

namespace FontRenamer

/-- Claim C5: for every wrapped table, every string and every 4-tuple of ids,
writing the string with `set_name_string` and reading the same 4-tuple back
with `get_name_string` returns exactly the written string. -/
theorem set_then_get_returns_string (t : NameTable) (s : String)
    (name_id platform_id platform_encoding_id language_id : Nat) :
    get_name_string
        (set_name_string t s name_id platform_id platform_encoding_id
          language_id)
        name_id platform_id platform_encoding_id language_id =
      .ok (.str s) := by
  simp [get_name_string, get_name_record, set_name_string, NameTable.setName,
    NameTable.getName, find?_setNameList]

/-- A wrapped table holding two records with identical id 4-tuples, as an
externally supplied raw table may. -/
def duplicateTable : NameTable :=
  ⟨[⟨.str "a", 1, 3, 1, 1033⟩, ⟨.str "b", 1, 3, 1, 1033⟩]⟩

/-- Counterexample to claim C6 as stated: on a wrapped table that already
holds two records with the queried 4-tuple, two writes leave two matching
records, not exactly one (each write overwrites only the first match). -/
theorem set_twice_duplicate_counterexample :
    ((set_name_string (set_name_string duplicateTable "x" 1 3 1 1033)
        "y" 1 3 1 1033).names.countP (recordMatches 1 3 1 1033)) = 2 ∧
    ((set_name_string (set_name_string duplicateTable "x" 1 3 1 1033)
        "y" 1 3 1 1033).names.countP (recordMatches 1 3 1 1033)) ≠ 1 := by
  refine ⟨by decide, by decide⟩

/-- Claim C6 as amended: when the wrapped table holds at most one record
matching the 4-tuple (in particular any table populated only through the
adapter, or an empty one), calling `set_name_string` twice with the same
4-tuple, first with s1 then with s2, leaves exactly one matching record, and
the record found for that 4-tuple holds s2. -/
theorem set_twice_leaves_one_record (t : NameTable) (s1 s2 : String)
    (name_id platform_id platform_encoding_id language_id : Nat)
    (h : t.names.countP
        (recordMatches name_id platform_id platform_encoding_id language_id)
      ≤ 1) :
    ((set_name_string (set_name_string t s1 name_id platform_id
        platform_encoding_id language_id) s2 name_id platform_id
        platform_encoding_id language_id).names.countP
      (recordMatches name_id platform_id platform_encoding_id language_id))
      = 1 ∧
    (set_name_string (set_name_string t s1 name_id platform_id
        platform_encoding_id language_id) s2 name_id platform_id
        platform_encoding_id language_id).getName name_id platform_id
        platform_encoding_id language_id =
      some ⟨.str s2, name_id, platform_id, platform_encoding_id,
        language_id⟩ := by
  constructor
  · simp only [set_name_string, NameTable.setName, countP_setNameList]
    rcases Nat.le_one_iff_eq_zero_or_eq_one.mp h with h0 | h1
    · simp [h0]
    · simp [h1]
  · simp [set_name_string, NameTable.setName, NameTable.getName,
      find?_setNameList]

/-- Witness for amended claim C6: starting from the empty table, writing "x"
then "y" at one 4-tuple leaves exactly one matching record, holding "y". -/
theorem set_twice_leaves_one_record_witness :
    ((set_name_string (set_name_string ⟨[]⟩ "x" 1 3 1 1033) "y" 1 3 1
        1033).names.countP (recordMatches 1 3 1 1033)) = 1 ∧
    (set_name_string (set_name_string ⟨[]⟩ "x" 1 3 1 1033) "y" 1 3 1
        1033).getName 1 3 1 1033 = some ⟨.str "y", 1, 3, 1, 1033⟩ :=
  set_twice_leaves_one_record ⟨[]⟩ "x" "y" 1 3 1 1033 (by decide)

/-- Claim C7: whenever no record of the wrapped table matches the queried
4-tuple (in particular on an empty table, for any ids), both read operations
raise the record-not-found error carrying all four queried ids; a miss is
never an empty, null or sentinel result. -/
theorem get_miss_raises_record_not_found (t : NameTable)
    (name_id platform_id platform_encoding_id language_id : Nat)
    (h : ∀ r ∈ t.names,
      recordMatches name_id platform_id platform_encoding_id language_id r =
        false) :
    get_name_record t name_id platform_id platform_encoding_id language_id =
      .error (.recordNotFound name_id platform_id platform_encoding_id
        language_id) ∧
    get_name_string t name_id platform_id platform_encoding_id language_id =
      .error (.recordNotFound name_id platform_id platform_encoding_id
        language_id) := by
  have hf : t.names.find?
      (recordMatches name_id platform_id platform_encoding_id language_id) =
      none := by
    rw [List.find?_eq_none]
    intro r hr
    simp [h r hr]
  constructor
  · simp [get_name_record, NameTable.getName, hf]
  · simp [get_name_string, get_name_record, NameTable.getName, hf]

/-- Witness for claim C7 at the empty table with all-zero ids. -/
theorem get_miss_raises_record_not_found_witness :
    get_name_record ⟨[]⟩ 0 0 0 0 = .error (.recordNotFound 0 0 0 0) ∧
    get_name_string ⟨[]⟩ 0 0 0 0 = .error (.recordNotFound 0 0 0 0) :=
  get_miss_raises_record_not_found ⟨[]⟩ 0 0 0 0 (by simp)

end FontRenamer

namespace FontRenamer

/-- Witness for amended claim C9 at a concrete record: declaration-order keys,
a field lookup, and the snapshot-equality hypothesis discharged at a concrete
pair of records. -/
theorem as_dict_spec_witness :
    sampleRecord.as_dict.map Prod.fst =
      ["string", "name_id", "platform_id", "platform_encoding_id",
       "language_id"] ∧
    sampleRecord.as_dict.lookup "string" = some (.s "s") ∧
    sampleRecord = sampleRecord :=
  ⟨(as_dict_spec sampleRecord).1,
   (as_dict_spec sampleRecord).2.1,
   (as_dict_spec sampleRecord).2.2.2.2.2.2 sampleRecord (by rfl)⟩

end FontRenamer
